import Mathlib

/-!
Verification of the AgroPredicción demand-forecasting backend.

The repository contains two functionally parallel forecasting engines,
`services/predictor.py` (Prophet-based) and `services/predictor_sarima.py`
(SARIMA-based), plus Flask routes in `app/routes.py`.  This file gives a
shallow embedding of the in-repository logic: data preparation, the
minimum-history gate, forecast postprocessing (zero clamping and 2-decimal
rounding), calendar-month labelling, confidence scoring, batch prediction,
and the two HTTP handlers relevant to period validation.

The external statistical libraries (Prophet's `fit`/`predict`,
statsmodels' `SARIMAX.fit`/`forecast`) are modelled as oracles: they
either raise (an `Except.error` carrying the exception text) or return raw
numeric outputs.  Python float arithmetic is idealised as exact rational /
real arithmetic; `round(x, 2)` is modelled as nearest-2-decimal rounding
with ties to even.  Division by zero, which in NumPy produces NaN rather
than raising, is not modelled; theorems that depend on a division carry a
positivity hypothesis on the divisor where relevant.
-/

/-- Sum of a list of rationals (a pandas column sum). -/
def listSum (l : List ℚ) : ℚ := l.foldr (fun x acc => x + acc) 0

/-- Arithmetic mean, as in `Series.mean()`.  (For the empty list Lean's
division by zero gives 0; all uses in the code are on nonempty series.) -/
def meanQ (l : List ℚ) : ℚ := listSum l / (l.length : ℚ)

/-- Sample variance with `ddof = 1`; `Series.std()` is its square root. -/
def sampleVar (l : List ℚ) : ℚ :=
  listSum (l.map (fun x => (x - meanQ l) ^ 2)) / ((l.length : ℚ) - 1)

/-- Nearest integer with ties to even: the ideal-arithmetic model of
Python's builtin `round` to 0 decimal places. -/
def roundHalfEven {α : Type} [LinearOrderedField α] [FloorRing α] (x : α) : ℤ :=
  if x - (Int.floor x : α) < 1 / 2 then Int.floor x
  else if 1 / 2 < x - (Int.floor x : α) then Int.floor x + 1
  else if 2 ∣ Int.floor x then Int.floor x else Int.floor x + 1

/-- Python `round(x, 2)`: round to the nearest multiple of 1/100. -/
def round2 {α : Type} [LinearOrderedField α] [FloorRing α] (x : α) : α :=
  ((roundHalfEven (100 * x) : ℤ) : α) / 100

/-- The shared label step used by both confidence scorers:
`"Alta" if c > 70 else "Media" if c > 40 else "Baja"`
(the spec's High / Medium / Low). -/
def levelOf {α : Type} [LinearOrderedField α] (c : α) : String :=
  if 70 < c then "Alta" else if 40 < c then "Media" else "Baja"

theorem roundHalfEven_nonneg {α : Type} [LinearOrderedField α] [FloorRing α]
    {x : α} (hx : 0 ≤ x) : 0 ≤ roundHalfEven x := by
  have h0 : (0 : ℤ) ≤ Int.floor x := Int.floor_nonneg.mpr hx
  unfold roundHalfEven
  split_ifs <;> omega

theorem roundHalfEven_le_int {α : Type} [LinearOrderedField α] [FloorRing α]
    {x : α} {n : ℤ} (hx : x ≤ (n : α)) : roundHalfEven x ≤ n := by
  have hfl : Int.floor x ≤ n := by
    have := Int.floor_le_floor hx
    simpa using this
  have hmid : ¬ (x - (Int.floor x : α) < 1 / 2) → Int.floor x + 1 ≤ n := by
    intro h
    have h1 : (1 : α) / 2 ≤ x - (Int.floor x : α) := le_of_not_lt h
    have h2 : (Int.floor x : α) < x := by
      have : (0 : α) < 1 / 2 := by norm_num
      linarith
    have h3 : (Int.floor x : α) < (n : α) := lt_of_lt_of_le h2 hx
    have h4 : Int.floor x < n := by exact_mod_cast h3
    omega
  unfold roundHalfEven
  split_ifs with h1 h2 h3
  · exact hfl
  · exact hmid h1
  · exact hfl
  · exact hmid h1

theorem round2_nonneg {α : Type} [LinearOrderedField α] [FloorRing α]
    {x : α} (hx : 0 ≤ x) : 0 ≤ round2 x := by
  have h1 : (0 : α) ≤ 100 * x := by positivity
  have h2 : (0 : ℤ) ≤ roundHalfEven (100 * x) := roundHalfEven_nonneg h1
  have h3 : (0 : α) ≤ ((roundHalfEven (100 * x) : ℤ) : α) := by exact_mod_cast h2
  unfold round2
  positivity

theorem round2_le_100 {α : Type} [LinearOrderedField α] [FloorRing α]
    {x : α} (hx : x ≤ 100) : round2 x ≤ 100 := by
  have h1 : 100 * x ≤ ((10000 : ℤ) : α) := by push_cast; linarith
  have h2 : roundHalfEven (100 * x) ≤ 10000 := roundHalfEven_le_int h1
  have h3 : ((roundHalfEven (100 * x) : ℤ) : α) ≤ 10000 := by exact_mod_cast h2
  unfold round2
  linarith

theorem roundHalfEven_intCast {α : Type} [LinearOrderedField α] [FloorRing α]
    (n : ℤ) : roundHalfEven ((n : ℤ) : α) = n := by
  unfold roundHalfEven
  rw [Int.floor_intCast]
  norm_num

theorem round2_intCast {α : Type} [LinearOrderedField α] [FloorRing α]
    (n : ℤ) : round2 ((n : ℤ) : α) = (n : α) := by
  unfold round2
  have h : (100 : α) * ((n : ℤ) : α) = (((100 * n : ℤ) : ℤ) : α) := by push_cast; ring
  rw [h, roundHalfEven_intCast]
  push_cast
  ring

/-! ## Data model -/

/-- One raw demand record, the dicts `{producto, anio, mes, demanda}`
stored by the upload endpoint and returned by Firestore. -/
structure DemandRecord where
  producto : String
  anio : ℤ
  mes : ℤ
  demanda : ℚ
deriving DecidableEq

/-- Absolute month index of a calendar (year, month): the timestamp
`year-month-01` used as `ds` / series index, linearised so that one step
is one calendar month. -/
def absMonth (anio mes : ℤ) : ℤ := 12 * anio + (mes - 1)

/-- Calendar year of an absolute month index (`Timestamp.year`); `/` on
`ℤ` is Euclidean division, i.e. floor division for the positive divisor. -/
def yearOf (m : ℤ) : ℤ := m / 12

/-- Calendar month (1..12) of an absolute month index (`Timestamp.month`). -/
def monthOf (m : ℤ) : ℤ := m % 12 + 1

/-- `strftime('%Y-%m')` on the first-of-month timestamp (leading zero on
the month; 4-digit zero padding of years below 1000 is not modelled, all
data years are 4-digit). -/
def fmtYM (y m : ℤ) : String :=
  toString y ++ "-" ++ (if m < 10 then "0" else "") ++ toString m

theorem absMonth_yearOf_monthOf (m : ℤ) :
    absMonth (yearOf m) (monthOf m) = m := by
  unfold absMonth yearOf monthOf
  omega

theorem monthOf_mem_range (m : ℤ) : 1 ≤ monthOf m ∧ monthOf m ≤ 12 := by
  unfold monthOf
  omega

/-- One formatted forecast row of the response, the dict built in the
results loop of `train_and_predict` in both variants. -/
structure ForecastPoint where
  fecha : String
  anio : ℤ
  mes : ℤ
  prediccion : ℚ
  limite_inferior : ℚ
  limite_superior : ℚ
deriving DecidableEq

/-- One formatted historical row (`_format_historical`). -/
structure HistPoint where
  fecha : String
  anio : ℤ
  mes : ℤ
  demanda : ℚ
deriving DecidableEq

/-- The result dict of `train_and_predict`.  A failure dict has only
`success` and `error` keys; the remaining fields model the missing keys
as empty / `none`.  `C` is the per-variant confidence dict type. -/
structure PredResult (C : Type) where
  success : Bool
  error : Option String
  predictions : List ForecastPoint
  historical : List HistPoint
  confidence : Option C
  total_data_points : ℕ

/-- The failure dict `{"success": False, "error": msg}`. -/
def failureResult {C : Type} (msg : String) : PredResult C :=
  { success := false, error := some msg, predictions := [], historical := [],
    confidence := none, total_data_points := 0 }

/-- The minimum-history error message (both variants, verbatim). -/
def insufficientMsg : String := "Se requieren al menos 12 meses de datos históricos"

/-- The wrapped exception message `f"Error en predicción: {str(e)}"`
(both variants). -/
def fitErrorMsg (e : String) : String := "Error en predicción: " ++ e

/-- Comparison on series rows used for the chronological sort. -/
def rowLe (a b : ℤ × ℚ) : Bool := a.1 ≤ b.1

/-- The prepared series: each record mapped to (first-of-month timestamp,
demand), sorted ascending by timestamp.  This is the common content of
Prophet's `df[['ds','y']]` and SARIMA's indexed `ts` after `prepare_data`
(duplicated months are retained, exactly as in the source). -/
def sortSeries (data : List DemandRecord) : List (ℤ × ℚ) :=
  (data.map (fun r => (absMonth r.anio r.mes, r.demanda))).mergeSort rowLe

/-- The last (chronologically final) timestamp of a prepared series:
`ts.index[-1]` / `history_dates.max()` (0 is a dummy for the empty
series, which is gated out before use). -/
def seriesLast (s : List (ℤ × ℚ)) : ℤ :=
  match s.getLast? with
  | some p => p.1
  | none => 0

theorem length_sortSeries (data : List DemandRecord) :
    (sortSeries data).length = data.length := by
  unfold sortSeries
  simp


/-! ## Prophet variant (`services/predictor.py`) -/

namespace Prophet

/-- The confidence dict returned by `predictor.py`'s
`_calculate_confidence`: only `score` and `level` keys (no `mae`).  The
score is real-valued because the dispersion formula takes a square
root. -/
structure Confidence where
  score : ℝ
  level : String

/-- Oracle for the external Prophet library.  `fitPredict` bundles model
construction, `fit`, `make_future_dataframe`'s row set and `predict`:
on success it returns the raw `(yhat, yhat_lower, yhat_upper)` row for
each first-of-month timestamp of the future dataframe; on failure it is
the exception text caught by `train_and_predict`'s handler. -/
structure Oracle where
  fitPredict : List (ℤ × ℚ) → Except String (ℤ → ℚ × ℚ × ℚ)

/-- `prepare_data`: `None` on empty input, otherwise the `(ds, y)` frame
sorted by date. -/
def prepare_data (data : List DemandRecord) : Option (List (ℤ × ℚ)) :=
  if data = [] then none else some (sortSeries data)

/-- `_calculate_confidence(historical_df, forecast)`: dispersion-based
score from `std/mean` of the historical `y` column (the `forecast`
argument is unused in the source).  No internal exception handling. -/
noncomputable def calculate_confidence (ys : List ℚ) : Confidence :=
  let variability : ℝ := Real.sqrt ((sampleVar ys : ℚ) : ℝ) / ((meanQ ys : ℚ) : ℝ)
  let confidence : ℝ := max 0 (min 100 (100 * (1 - variability)))
  { score := round2 confidence, level := levelOf confidence }

/-- `_format_historical(df)`. -/
def format_historical (df : List (ℤ × ℚ)) : List HistPoint :=
  df.map (fun p =>
    { fecha := fmtYM (yearOf p.1) (monthOf p.1), anio := yearOf p.1,
      mes := monthOf p.1, demanda := round2 p.2 })

/-- The dates of `make_future_dataframe(periods, freq='MS')`: the history
dates followed by the `periods` consecutive first-of-month timestamps
after the last history date (`include_history=True` default). -/
def futureFrame (df : List (ℤ × ℚ)) (periods : ℕ) : List ℤ :=
  df.map (fun p => p.1) ++
    (List.range periods).map (fun (i : ℕ) => seriesLast df + 1 + (i : ℤ))

/-- `train_and_predict` as the source method: `self.model` threaded
explicitly.  The state is the prepared frame the freshly constructed
model was trained on (`None` mirrors the `__init__` value); it is
assigned before any read in every call.  `predictions = forecast.tail(periods)`
is the last `periods` rows of the future dataframe. -/
noncomputable def train_and_predict_method (oracle : Oracle)
    (selfModel : Option (List (ℤ × ℚ))) (historical_data : List DemandRecord)
    (periods : ℕ) :
    PredResult Confidence × Option (List (ℤ × ℚ)) :=
  match prepare_data historical_data with
  | none => (failureResult insufficientMsg, selfModel)
  | some df =>
    if df.length < 12 then (failureResult insufficientMsg, selfModel)
    else
      match oracle.fitPredict df with
      | .error e => (failureResult (fitErrorMsg e), some df)
      | .ok yhat =>
        let future := futureFrame df periods
        let tailRows := future.drop (future.length - periods)
        let results := tailRows.map (fun m =>
          { fecha := fmtYM (yearOf m) (monthOf m), anio := yearOf m,
            mes := monthOf m,
            prediccion := round2 (max 0 (yhat m).1),
            limite_inferior := round2 (max 0 (yhat m).2.1),
            limite_superior := round2 (max 0 (yhat m).2.2) : ForecastPoint })
        ({ success := true, error := none, predictions := results,
           historical := format_historical df,
           confidence := some (calculate_confidence (df.map (fun p => p.2))),
           total_data_points := df.length }, some df)

/-- The per-call result of `train_and_predict` (fresh predictor state). -/
noncomputable def train_and_predict (oracle : Oracle)
    (historical_data : List DemandRecord) (periods : ℕ) :
    PredResult Confidence :=
  (train_and_predict_method oracle none historical_data periods).1

/-- `predict_multiple_products`: the result-dict accumulation loop. -/
noncomputable def predict_multiple_products (oracle : Oracle)
    (products_data : List (String × List DemandRecord)) (periods : ℕ) :
    List (String × PredResult Confidence) :=
  products_data.foldl
    (fun results pd => results ++ [(pd.1, train_and_predict oracle pd.2 periods)]) []

end Prophet


/-! ## SARIMA variant (`services/predictor_sarima.py`) -/

namespace Sarima

/-- The confidence dict returned by `predictor_sarima.py`'s
`_calculate_confidence`: `score`, `level` and `mae`. -/
structure Confidence where
  score : ℚ
  level : String
  mae : ℚ
deriving DecidableEq

/-- The neutral fallback dict of the scorer's `except` branch. -/
def neutralConfidence : Confidence := { score := 50, level := "Media", mae := 0 }

/-- The fitted-model object returned by `SARIMAX(...).fit(disp=False)`:
`forecast(steps)` / `get_forecast(steps).conf_int()` give one row per
step index, and reading or fitting `fittedvalues` in-sample can itself
raise (captured as `Except`).  -/
structure Fit where
  forecastAt : ℕ → ℚ
  confIntAt : ℕ → ℚ × ℚ
  fittedvalues : Except String (List ℚ)

/-- Oracle for the external statsmodels library: constructing and
fitting the SARIMAX model either raises or yields a fitted model. -/
structure Oracle where
  fit : List (ℤ × ℚ) → Except String Fit

/-- `prepare_data`: `None` on empty input, otherwise the demand series
indexed by date, sorted. -/
def prepare_data (data : List DemandRecord) : Option (List (ℤ × ℚ)) :=
  if data = [] then none else some (sortSeries data)

/-- `sklearn.metrics.mean_absolute_error`: raises on length mismatch or
empty input (the message text is irrelevant: it is swallowed by the
scorer's bare `except`). -/
def maeOf (actual pred : List ℚ) : Except String ℚ :=
  if actual.length = pred.length ∧ actual.length ≠ 0 then
    .ok (listSum ((actual.zip pred).map (fun p => |p.1 - p.2|)) / (actual.length : ℚ))
  else .error "mean_absolute_error: inconsistent input"

/-- `_calculate_confidence(ts, model_fit)`: residual-based score from the
in-sample MAE (both series with their first point dropped), relative to
the mean demand, guarded by `if mean_demand > 0 else 1`; any internal
failure falls back to the neutral default via the bare `except`. -/
def calculate_confidence (ts : List ℚ) (fittedvalues : Except String (List ℚ)) :
    Confidence :=
  match fittedvalues with
  | .error _ => neutralConfidence
  | .ok fv =>
    match maeOf (ts.drop 1) (fv.drop 1) with
    | .error _ => neutralConfidence
    | .ok mae =>
      let mean_demand := meanQ ts
      let relative_error := if 0 < mean_demand then mae / mean_demand else 1
      let confidence := max 0 (min 100 (100 * (1 - relative_error)))
      { score := round2 confidence, level := levelOf confidence,
        mae := round2 mae }

/-- `_format_historical(ts)`. -/
def format_historical (ts : List (ℤ × ℚ)) : List HistPoint :=
  ts.map (fun p =>
    { fecha := fmtYM (yearOf p.1) (monthOf p.1), anio := yearOf p.1,
      mes := monthOf p.1, demanda := round2 p.2 })

/-- `train_and_predict` as the source method, with `self.model` threaded
explicitly (assigned to the model built on the prepared series before
any read, in every call).  `forecast_dates = pd.date_range(ts.index[-1]
+ 1 month, periods, freq='MS')` and the results loop enumerates it. -/
def train_and_predict_method (oracle : Oracle)
    (selfModel : Option (List (ℤ × ℚ))) (historical_data : List DemandRecord)
    (periods : ℕ) :
    PredResult Confidence × Option (List (ℤ × ℚ)) :=
  match prepare_data historical_data with
  | none => (failureResult insufficientMsg, selfModel)
  | some ts =>
    if ts.length < 12 then (failureResult insufficientMsg, selfModel)
    else
      match oracle.fit ts with
      | .error e => (failureResult (fitErrorMsg e), some ts)
      | .ok mf =>
        let forecast_dates :=
          (List.range periods).map (fun (i : ℕ) => seriesLast ts + 1 + (i : ℤ))
        let results := forecast_dates.enum.map (fun di =>
          { fecha := fmtYM (yearOf di.2) (monthOf di.2), anio := yearOf di.2,
            mes := monthOf di.2,
            prediccion := round2 (max 0 (mf.forecastAt di.1)),
            limite_inferior := round2 (max 0 (mf.confIntAt di.1).1),
            limite_superior := round2 (max 0 (mf.confIntAt di.1).2) : ForecastPoint })
        ({ success := true, error := none, predictions := results,
           historical := format_historical ts,
           confidence := some (calculate_confidence (ts.map (fun p => p.2))
             mf.fittedvalues),
           total_data_points := ts.length }, some ts)

/-- The per-call result of `train_and_predict` (fresh predictor state). -/
def train_and_predict (oracle : Oracle)
    (historical_data : List DemandRecord) (periods : ℕ) :
    PredResult Confidence :=
  (train_and_predict_method oracle none historical_data periods).1

/-- `predict_multiple_products`: the result-dict accumulation loop. -/
def predict_multiple_products (oracle : Oracle)
    (products_data : List (String × List DemandRecord)) (periods : ℕ) :
    List (String × PredResult Confidence) :=
  products_data.foldl
    (fun results pd => results ++ [(pd.1, train_and_predict oracle pd.2 periods)]) []

end Sarima


/-! ## Routes (`app/routes.py`) -/

/-- The persistence collaborator as seen by the routes: `FirebaseService`'s
two read operations. -/
structure FirebaseStore where
  productData : String → List DemandRecord
  allProducts : List String

/-- An HTTP handler outcome: a JSON payload or an error with status. -/
inductive ApiResponse (P : Type) where
  | ok (payload : P)
  | err (status : ℕ) (message : String)

/-- `GET /predict/<producto>` (`predict_product`): validates
`periods ∈ [1, 12]` before touching the store or the predictor; the
module-level predictor is the Prophet one, imported from
`services.predictor`. -/
noncomputable def predict_product (fb : FirebaseStore) (oracle : Prophet.Oracle)
    (producto : String) (periods : ℕ) :
    ApiResponse (String × PredResult Prophet.Confidence) :=
  if periods < 1 ∨ 12 < periods then
    .err 400 "Los períodos deben estar entre 1 y 12"
  else
    let producto_upper := producto.toUpper
    let historical_data := fb.productData producto_upper
    if historical_data = [] then
      .err 404 ("No se encontraron datos para el producto: " ++ producto)
    else
      let result := Prophet.train_and_predict oracle historical_data periods
      if result.success then .ok (producto_upper, result)
      else .err 400 (result.error.getD "")

/-- `GET /predict-all` (`predict_all_products`): no `periods` validation;
forecasts every product with the given `periods`. -/
noncomputable def predict_all_products (fb : FirebaseStore)
    (oracle : Prophet.Oracle) (periods : ℕ) :
    ApiResponse (List (String × PredResult Prophet.Confidence)) :=
  if fb.allProducts = [] then
    .err 404 "No hay productos disponibles. Sube datos primero."
  else
    .ok (fb.allProducts.foldl
      (fun results p =>
        results ++ [(p, Prophet.train_and_predict oracle (fb.productData p) periods)])
      [])


/-! ## Helper lemmas -/

theorem foldl_push_eq_map {α β : Type} (f : α → β) :
    ∀ (l : List α) (init : List β),
      l.foldl (fun acc x => acc ++ [f x]) init = init ++ l.map f
  | [], init => by simp
  | x :: xs, init => by
    simp only [List.foldl_cons, List.map_cons]
    rw [foldl_push_eq_map f xs]
    simp

theorem sortSeries_pairwise (data : List DemandRecord) :
    (sortSeries data).Pairwise (fun a b => rowLe a b = true) := by
  unfold sortSeries
  apply List.sorted_mergeSort
  · intro a b c hab hbc
    simp only [rowLe, decide_eq_true_eq] at *
    omega
  · intro a b
    simp only [rowLe]
    by_cases h : a.1 ≤ b.1
    · simp [h]
    · simp [le_of_not_le h]

theorem mem_sortSeries_iff {data : List DemandRecord} {x : ℤ × ℚ} :
    x ∈ sortSeries data ↔
      x ∈ data.map (fun r => (absMonth r.anio r.mes, r.demanda)) := by
  unfold sortSeries
  exact (List.mergeSort_perm _ _).mem_iff

theorem seriesLast_mem (l : List (ℤ × ℚ)) (h : l ≠ []) :
    ∃ p ∈ l, p.1 = seriesLast l := by
  refine ⟨l.getLast h, List.getLast_mem h, ?_⟩
  unfold seriesLast
  rw [List.getLast?_eq_getLast l h]

theorem pairwise_le_seriesLast :
    ∀ (l : List (ℤ × ℚ)), l.Pairwise (fun a b => rowLe a b = true) →
      ∀ x ∈ l, x.1 ≤ seriesLast l := by
  intro l
  induction l with
  | nil => intro _ x hx; cases hx
  | cons a t ih =>
    intro hp x hx
    rcases List.pairwise_cons.mp hp with ⟨ha, ht⟩
    cases t with
    | nil =>
      rcases List.mem_cons.mp hx with hx | hx
      · simp [seriesLast, List.getLast?, hx]
      · cases hx
    | cons b t' =>
      have hlast : seriesLast (a :: b :: t') = seriesLast (b :: t') := by
        simp [seriesLast, List.getLast?_cons_cons]
      rcases List.mem_cons.mp hx with hx | hx
      · subst hx
        rcases seriesLast_mem (b :: t') (by simp) with ⟨p, hp1, hp2⟩
        have := ha p hp1
        simp only [rowLe, decide_eq_true_eq] at this
        rw [hlast, ← hp2]
        exact this
      · rw [hlast]
        exact ih ht x hx

theorem futureFrame_tail (df : List (ℤ × ℚ)) (periods : ℕ) :
    (Prophet.futureFrame df periods).drop
        ((Prophet.futureFrame df periods).length - periods) =
      (List.range periods).map (fun (i : ℕ) => seriesLast df + 1 + (i : ℤ)) := by
  have hl : (Prophet.futureFrame df periods).length = df.length + periods := by
    unfold Prophet.futureFrame
    rw [List.length_append, List.length_map, List.length_map, List.length_range]
  rw [hl]
  have hsub : df.length + periods - periods = df.length := by omega
  rw [hsub]
  unfold Prophet.futureFrame
  have hmap : (df.map (fun p => p.1)).length = df.length := List.length_map _ _
  rw [← hmap]
  exact List.drop_left _ _

theorem fitErrorMsg_ne_insufficientMsg (e : String) :
    fitErrorMsg e ≠ insufficientMsg := by
  intro h
  have h1 : (fitErrorMsg e).data.head? = insufficientMsg.data.head? := by rw [h]
  have h2 : (fitErrorMsg e).data.head? = some 'E' := by
    simp only [fitErrorMsg, String.data_append]
    rfl
  have h3 : insufficientMsg.data.head? = some 'S' := rfl
  rw [h2, h3] at h1
  simp at h1


/-! ## Concrete fixtures for witnesses and counterexamples -/

/-- A demand record for the product "PAPA". -/
def mkRec (y m : ℤ) (d : ℚ) : DemandRecord :=
  { producto := "PAPA", anio := y, mes := m, demanda := d }

/-- Five monthly records (too short for the gate). -/
def data5 : List DemandRecord :=
  [mkRec 2023 1 10, mkRec 2023 2 11, mkRec 2023 3 12, mkRec 2023 4 13,
   mkRec 2023 5 14]

/-- Twelve monthly records (exactly at the gate). -/
def data12 : List DemandRecord :=
  [mkRec 2020 1 10, mkRec 2020 2 10, mkRec 2020 3 10, mkRec 2020 4 10,
   mkRec 2020 5 10, mkRec 2020 6 10, mkRec 2020 7 10, mkRec 2020 8 10,
   mkRec 2020 9 10, mkRec 2020 10 10, mkRec 2020 11 10, mkRec 2020 12 10]

/-- A Prophet oracle whose fit always raises. -/
def oracleFailP : Prophet.Oracle := { fitPredict := fun _ => .error "boom" }

/-- A Prophet oracle that fits and returns constant raw rows, with a
negative point estimate and lower bound. -/
def oracleOkP : Prophet.Oracle :=
  { fitPredict := fun _ => .ok (fun _ => ((-1 : ℚ), (-2 : ℚ), (3 : ℚ))) }

/-- A SARIMA oracle whose fit always raises. -/
def oracleFailS : Sarima.Oracle := { fit := fun _ => .error "boom" }

/-- A fitted SARIMA model whose in-sample `fittedvalues` access raises. -/
def sarimaFitBadResid : Sarima.Fit :=
  { forecastAt := fun _ => 5, confIntAt := fun _ => (1, 9),
    fittedvalues := .error "residual failure" }

/-- A SARIMA oracle that fits and returns `sarimaFitBadResid`. -/
def oracleOkS : Sarima.Oracle := { fit := fun _ => .ok sarimaFitBadResid }

theorem data_ne_nil_of_length_eq {data : List DemandRecord} {n : ℕ}
    (h : data.length = n) (hn : n ≠ 0) : data ≠ [] := by
  intro hd
  subst hd
  simp at h
  exact hn h.symm

/-! ## Branch lemmas for `train_and_predict` -/

theorem prophet_tap_gate (po : Prophet.Oracle) (data : List DemandRecord)
    (periods : ℕ) (hlt : data.length < 12) :
    Prophet.train_and_predict po data periods = failureResult insufficientMsg := by
  unfold Prophet.train_and_predict Prophet.train_and_predict_method
  by_cases hd : data = []
  · simp [Prophet.prepare_data, hd]
  · simp [Prophet.prepare_data, hd, length_sortSeries, hlt]

theorem sarima_tap_gate (so : Sarima.Oracle) (data : List DemandRecord)
    (periods : ℕ) (hlt : data.length < 12) :
    Sarima.train_and_predict so data periods = failureResult insufficientMsg := by
  unfold Sarima.train_and_predict Sarima.train_and_predict_method
  by_cases hd : data = []
  · simp [Sarima.prepare_data, hd]
  · simp [Sarima.prepare_data, hd, length_sortSeries, hlt]

theorem prophet_tap_fit_error (po : Prophet.Oracle) (data : List DemandRecord)
    (periods : ℕ) (e : String) (hd : data ≠ [])
    (hlen : ¬ (sortSeries data).length < 12)
    (he : po.fitPredict (sortSeries data) = .error e) :
    Prophet.train_and_predict po data periods = failureResult (fitErrorMsg e) := by
  unfold Prophet.train_and_predict Prophet.train_and_predict_method
  simp [Prophet.prepare_data, hd, hlen, he]

theorem sarima_tap_fit_error (so : Sarima.Oracle) (data : List DemandRecord)
    (periods : ℕ) (e : String) (hd : data ≠ [])
    (hlen : ¬ (sortSeries data).length < 12)
    (he : so.fit (sortSeries data) = .error e) :
    Sarima.train_and_predict so data periods = failureResult (fitErrorMsg e) := by
  unfold Sarima.train_and_predict Sarima.train_and_predict_method
  simp [Sarima.prepare_data, hd, hlen, he]

theorem prophet_tap_fit_ok (po : Prophet.Oracle) (data : List DemandRecord)
    (periods : ℕ) (f : ℤ → ℚ × ℚ × ℚ) (hd : data ≠ [])
    (hlen : ¬ (sortSeries data).length < 12)
    (hf : po.fitPredict (sortSeries data) = .ok f) :
    Prophet.train_and_predict po data periods =
      { success := true, error := none,
        predictions := ((Prophet.futureFrame (sortSeries data) periods).drop
            ((Prophet.futureFrame (sortSeries data) periods).length - periods)).map
          (fun m =>
            { fecha := fmtYM (yearOf m) (monthOf m), anio := yearOf m,
              mes := monthOf m,
              prediccion := round2 (max 0 (f m).1),
              limite_inferior := round2 (max 0 (f m).2.1),
              limite_superior := round2 (max 0 (f m).2.2) }),
        historical := Prophet.format_historical (sortSeries data),
        confidence := some (Prophet.calculate_confidence
          ((sortSeries data).map (fun p => p.2))),
        total_data_points := (sortSeries data).length } := by
  unfold Prophet.train_and_predict Prophet.train_and_predict_method
  simp [Prophet.prepare_data, hd, hlen, hf]

theorem sarima_tap_fit_ok (so : Sarima.Oracle) (data : List DemandRecord)
    (periods : ℕ) (mf : Sarima.Fit) (hd : data ≠ [])
    (hlen : ¬ (sortSeries data).length < 12)
    (hf : so.fit (sortSeries data) = .ok mf) :
    Sarima.train_and_predict so data periods =
      { success := true, error := none,
        predictions := ((List.range periods).map
            (fun (i : ℕ) => seriesLast (sortSeries data) + 1 + (i : ℤ))).enum.map
          (fun di =>
            { fecha := fmtYM (yearOf di.2) (monthOf di.2), anio := yearOf di.2,
              mes := monthOf di.2,
              prediccion := round2 (max 0 (mf.forecastAt di.1)),
              limite_inferior := round2 (max 0 (mf.confIntAt di.1).1),
              limite_superior := round2 (max 0 (mf.confIntAt di.1).2) }),
        historical := Sarima.format_historical (sortSeries data),
        confidence := some (Sarima.calculate_confidence
          ((sortSeries data).map (fun p => p.2)) mf.fittedvalues),
        total_data_points := (sortSeries data).length } := by
  unfold Sarima.train_and_predict Sarima.train_and_predict_method
  simp [Sarima.prepare_data, hd, hlen, hf]

/-! ## Claims -/

/-- Claim C1: for every input record list, `train_and_predict` fails with
the insufficient-history result whenever the prepared series has fewer
than 12 points (including the empty input), and with exactly 12 points it
passes the minimum-history gate and proceeds to fitting — the outcome is
the fit's outcome, and the error is never the InsufficientHistory
message — in both model variants. -/
theorem claim_C1_min_history_gate
    (po : Prophet.Oracle) (so : Sarima.Oracle) (data : List DemandRecord)
    (periods : ℕ) :
    (data.length < 12 →
      Prophet.train_and_predict po data periods = failureResult insufficientMsg ∧
      Sarima.train_and_predict so data periods = failureResult insufficientMsg) ∧
    (data.length = 12 →
      ((∀ e, po.fitPredict (sortSeries data) = .error e →
          Prophet.train_and_predict po data periods = failureResult (fitErrorMsg e)) ∧
       (∀ f, po.fitPredict (sortSeries data) = .ok f →
          (Prophet.train_and_predict po data periods).success = true) ∧
       (Prophet.train_and_predict po data periods).error ≠ some insufficientMsg) ∧
      ((∀ e, so.fit (sortSeries data) = .error e →
          Sarima.train_and_predict so data periods = failureResult (fitErrorMsg e)) ∧
       (∀ mf, so.fit (sortSeries data) = .ok mf →
          (Sarima.train_and_predict so data periods).success = true) ∧
       (Sarima.train_and_predict so data periods).error ≠ some insufficientMsg)) := by
  constructor
  · intro hlt
    constructor
    · unfold Prophet.train_and_predict Prophet.train_and_predict_method
      by_cases hd : data = []
      · simp [Prophet.prepare_data, hd]
      · simp [Prophet.prepare_data, hd, length_sortSeries, hlt]
    · unfold Sarima.train_and_predict Sarima.train_and_predict_method
      by_cases hd : data = []
      · simp [Sarima.prepare_data, hd]
      · simp [Sarima.prepare_data, hd, length_sortSeries, hlt]
  · intro hlen
    have hd : data ≠ [] := data_ne_nil_of_length_eq hlen (by norm_num)
    have hnl : ¬ (sortSeries data).length < 12 := by
      rw [length_sortSeries, hlen]
      omega
    constructor
    · refine ⟨?_, ?_, ?_⟩
      · intro e he
        unfold Prophet.train_and_predict Prophet.train_and_predict_method
        simp [Prophet.prepare_data, hd, hnl, he]
      · intro f hf
        unfold Prophet.train_and_predict Prophet.train_and_predict_method
        simp [Prophet.prepare_data, hd, hnl, hf]
      · unfold Prophet.train_and_predict Prophet.train_and_predict_method
        cases hf : po.fitPredict (sortSeries data) with
        | error e =>
          simp [Prophet.prepare_data, hd, hnl, hf, failureResult]
          exact fitErrorMsg_ne_insufficientMsg e
        | ok f =>
          simp [Prophet.prepare_data, hd, hnl, hf]
    · refine ⟨?_, ?_, ?_⟩
      · intro e he
        unfold Sarima.train_and_predict Sarima.train_and_predict_method
        simp [Sarima.prepare_data, hd, hnl, he]
      · intro mf hf
        unfold Sarima.train_and_predict Sarima.train_and_predict_method
        simp [Sarima.prepare_data, hd, hnl, hf]
      · unfold Sarima.train_and_predict Sarima.train_and_predict_method
        cases hf : so.fit (sortSeries data) with
        | error e =>
          simp [Sarima.prepare_data, hd, hnl, hf, failureResult]
          exact fitErrorMsg_ne_insufficientMsg e
        | ok mf =>
          simp [Sarima.prepare_data, hd, hnl, hf]


/-- Claim C1 witness: at 5 records both variants return the
insufficient-history failure; at exactly 12 records the gate passes and
the outcome is the fit's outcome. -/
theorem claim_C1_min_history_gate_witness :
    Prophet.train_and_predict oracleFailP data5 3 = failureResult insufficientMsg ∧
    Sarima.train_and_predict oracleFailS data5 3 = failureResult insufficientMsg ∧
    Prophet.train_and_predict oracleFailP data12 3 = failureResult (fitErrorMsg "boom") ∧
    (Sarima.train_and_predict oracleOkS data12 3).success = true := by
  refine ⟨?_, ?_, ?_, ?_⟩
  · exact ((claim_C1_min_history_gate oracleFailP oracleFailS data5 3).1
      (by decide)).1
  · exact ((claim_C1_min_history_gate oracleFailP oracleFailS data5 3).1
      (by decide)).2
  · exact (((claim_C1_min_history_gate oracleFailP oracleFailS data12 3).2
      (by decide)).1).1 "boom" rfl
  · exact (((claim_C1_min_history_gate oracleFailP oracleOkS data12 3).2
      (by decide)).2).2.1 sarimaFitBadResid rfl


/-- Claim C2: in every ForecastPoint produced by either model variant the
point estimate, lower bound and upper bound are each independently
clamped to a minimum of zero (hence all three are nonnegative for every
input, regardless of the raw model output sign) and each is the 2-decimal
rounding of its clamped raw value. -/
theorem claim_C2_clamped_rounded :
    (∀ (po : Prophet.Oracle) (data : List DemandRecord) (periods : ℕ)
       (p : ForecastPoint),
       p ∈ (Prophet.train_and_predict po data periods).predictions →
       (0 ≤ p.prediccion ∧ 0 ≤ p.limite_inferior ∧ 0 ≤ p.limite_superior) ∧
       ∃ y lo hi : ℚ, p.prediccion = round2 (max 0 y) ∧
         p.limite_inferior = round2 (max 0 lo) ∧
         p.limite_superior = round2 (max 0 hi)) ∧
    (∀ (so : Sarima.Oracle) (data : List DemandRecord) (periods : ℕ)
       (p : ForecastPoint),
       p ∈ (Sarima.train_and_predict so data periods).predictions →
       (0 ≤ p.prediccion ∧ 0 ≤ p.limite_inferior ∧ 0 ≤ p.limite_superior) ∧
       ∃ y lo hi : ℚ, p.prediccion = round2 (max 0 y) ∧
         p.limite_inferior = round2 (max 0 lo) ∧
         p.limite_superior = round2 (max 0 hi)) := by
  constructor
  · intro po data periods p hp
    unfold Prophet.train_and_predict Prophet.train_and_predict_method at hp
    by_cases hd : data = []
    · simp [Prophet.prepare_data, hd, failureResult] at hp
    · by_cases hlt : (sortSeries data).length < 12
      · simp [Prophet.prepare_data, hd, hlt, failureResult] at hp
      · cases hf : po.fitPredict (sortSeries data) with
        | error e =>
          simp [Prophet.prepare_data, hd, hlt, hf, failureResult] at hp
        | ok yhat =>
          simp only [Prophet.prepare_data, if_neg hd, if_neg hlt, hf] at hp
          simp only [List.mem_map] at hp
          rcases hp with ⟨m, hm, heq⟩
          subst heq
          exact ⟨⟨round2_nonneg (le_max_left 0 _),
              round2_nonneg (le_max_left 0 _), round2_nonneg (le_max_left 0 _)⟩,
            (yhat m).1, (yhat m).2.1, (yhat m).2.2, rfl, rfl, rfl⟩
  · intro so data periods p hp
    unfold Sarima.train_and_predict Sarima.train_and_predict_method at hp
    by_cases hd : data = []
    · simp [Sarima.prepare_data, hd, failureResult] at hp
    · by_cases hlt : (sortSeries data).length < 12
      · simp [Sarima.prepare_data, hd, hlt, failureResult] at hp
      · cases hf : so.fit (sortSeries data) with
        | error e =>
          simp [Sarima.prepare_data, hd, hlt, hf, failureResult] at hp
        | ok mf =>
          simp only [Sarima.prepare_data, if_neg hd, if_neg hlt, hf] at hp
          simp only [List.mem_map] at hp
          rcases hp with ⟨di, hdi, heq⟩
          subst heq
          exact ⟨⟨round2_nonneg (le_max_left 0 _),
              round2_nonneg (le_max_left 0 _), round2_nonneg (le_max_left 0 _)⟩,
            mf.forecastAt di.1, (mf.confIntAt di.1).1, (mf.confIntAt di.1).2,
            rfl, rfl, rfl⟩


/-- The first forecast row produced by `oracleOkP` on `data12`. -/
def samplePoint : ForecastPoint :=
  { fecha := "2021-01", anio := 2021, mes := 1, prediccion := 0,
    limite_inferior := 0, limite_superior := 3 }

/-- Claim C2 witness: a concrete successful Prophet forecast whose raw
point estimate and lower bound were negative yields a clamped, rounded
row. -/
theorem claim_C2_clamped_rounded_witness :
    samplePoint ∈ (Prophet.train_and_predict oracleOkP data12 2).predictions ∧
    (0 ≤ samplePoint.prediccion ∧ 0 ≤ samplePoint.limite_inferior ∧
      0 ≤ samplePoint.limite_superior) ∧
    ∃ y lo hi : ℚ, samplePoint.prediccion = round2 (max 0 y) ∧
      samplePoint.limite_inferior = round2 (max 0 lo) ∧
      samplePoint.limite_superior = round2 (max 0 hi) := by
  have hmem : samplePoint ∈
      (Prophet.train_and_predict oracleOkP data12 2).predictions := by
    have hd12 : data12 ≠ [] := by decide
    have hsorted : sortSeries data12 =
        data12.map (fun r => (absMonth r.anio r.mes, r.demanda)) := by
      unfold sortSeries
      exact List.mergeSort_of_sorted (by decide)
    have hlen12 : ¬ (sortSeries data12).length < 12 := by
      rw [length_sortSeries]
      decide
    have hlast : seriesLast (sortSeries data12) = 24251 := by
      rw [hsorted]
      decide
    rw [prophet_tap_fit_ok oracleOkP data12 2
      (fun _ => ((-1 : ℚ), (-2 : ℚ), (3 : ℚ))) hd12 hlen12 rfl]
    dsimp only
    rw [futureFrame_tail, hlast]
    have hrange : (List.range 2).map (fun (i : ℕ) => (24251 : ℤ) + 1 + (i : ℤ)) =
        [24252, 24253] := by decide
    rw [hrange]
    have hr0 : round2 (max (0 : ℚ) (-1)) = 0 := by
      rw [show max (0 : ℚ) (-1) = ((0 : ℤ) : ℚ) by norm_num, round2_intCast]
      norm_num
    have hr0b : round2 (max (0 : ℚ) (-2)) = 0 := by
      rw [show max (0 : ℚ) (-2) = ((0 : ℤ) : ℚ) by norm_num, round2_intCast]
      norm_num
    have hr3 : round2 (max (0 : ℚ) 3) = 3 := by
      rw [show max (0 : ℚ) 3 = ((3 : ℤ) : ℚ) by norm_num, round2_intCast]
      norm_num
    refine List.mem_cons.mpr (Or.inl ?_)
    have hy : yearOf 24252 = 2021 := by decide
    have hm : monthOf 24252 = 1 := by decide
    have hz : round2 (0 : ℚ) = 0 := by
      simpa using round2_intCast (α := ℚ) 0
    have h3q : round2 (3 : ℚ) = 3 := by
      simpa using round2_intCast (α := ℚ) 3
    simp [samplePoint, hy, hm, hr0, hr0b, hr3, hz, h3q]
    rfl
  exact ⟨hmem, claim_C2_clamped_rounded.1 oracleOkP data12 2 samplePoint hmem⟩

/-- Claim C3: for every successful forecast with requested horizon
`periods`, the predictions list has exactly `periods` entries whose
(year, month) labels are the strictly consecutive calendar months
starting immediately after the last historical point (the maximum month
of the input records), with months in 1..12 — in both model variants. -/
theorem claim_C3_horizon_consecutive :
    (∀ (po : Prophet.Oracle) (data : List DemandRecord) (periods : ℕ),
      (Prophet.train_and_predict po data periods).success = true →
      (Prophet.train_and_predict po data periods).predictions.length = periods ∧
      (Prophet.train_and_predict po data periods).predictions.map
          (fun p => absMonth p.anio p.mes) =
        (List.range periods).map
          (fun (i : ℕ) => seriesLast (sortSeries data) + 1 + (i : ℤ)) ∧
      (∀ p ∈ (Prophet.train_and_predict po data periods).predictions,
        1 ≤ p.mes ∧ p.mes ≤ 12) ∧
      (∀ r ∈ data, absMonth r.anio r.mes ≤ seriesLast (sortSeries data)) ∧
      (∃ r ∈ data, absMonth r.anio r.mes = seriesLast (sortSeries data))) ∧
    (∀ (so : Sarima.Oracle) (data : List DemandRecord) (periods : ℕ),
      (Sarima.train_and_predict so data periods).success = true →
      (Sarima.train_and_predict so data periods).predictions.length = periods ∧
      (Sarima.train_and_predict so data periods).predictions.map
          (fun p => absMonth p.anio p.mes) =
        (List.range periods).map
          (fun (i : ℕ) => seriesLast (sortSeries data) + 1 + (i : ℤ)) ∧
      (∀ p ∈ (Sarima.train_and_predict so data periods).predictions,
        1 ≤ p.mes ∧ p.mes ≤ 12) ∧
      (∀ r ∈ data, absMonth r.anio r.mes ≤ seriesLast (sortSeries data)) ∧
      (∃ r ∈ data, absMonth r.anio r.mes = seriesLast (sortSeries data))) := by
  have hmax : ∀ (data : List DemandRecord), ∀ r ∈ data,
      absMonth r.anio r.mes ≤ seriesLast (sortSeries data) := by
    intro data r hr
    have hmem : (absMonth r.anio r.mes, r.demanda) ∈ sortSeries data :=
      mem_sortSeries_iff.mpr (List.mem_map_of_mem _ hr)
    exact pairwise_le_seriesLast (sortSeries data) (sortSeries_pairwise data)
      _ hmem
  have hach : ∀ (data : List DemandRecord), data ≠ [] →
      ∃ r ∈ data, absMonth r.anio r.mes = seriesLast (sortSeries data) := by
    intro data hd
    have hne : sortSeries data ≠ [] := by
      intro hcontra
      have := length_sortSeries data
      rw [hcontra] at this
      simp at this
      exact hd (List.length_eq_zero.mp this.symm)
    rcases seriesLast_mem (sortSeries data) hne with ⟨p, hp, hp2⟩
    rcases List.mem_map.mp (mem_sortSeries_iff.mp hp) with ⟨r, hr, hr2⟩
    refine ⟨r, hr, ?_⟩
    rw [← hp2, ← hr2]
  constructor
  · intro po data periods hs
    by_cases hd : data = []
    · rw [prophet_tap_gate po data periods (by simp [hd])] at hs
      simp [failureResult] at hs
    · by_cases hlt : (sortSeries data).length < 12
      · rw [prophet_tap_gate po data periods
          (by rwa [length_sortSeries] at hlt)] at hs
        simp [failureResult] at hs
      · cases hf : po.fitPredict (sortSeries data) with
        | error e =>
          rw [prophet_tap_fit_error po data periods e hd hlt hf] at hs
          simp [failureResult] at hs
        | ok f =>
          rw [prophet_tap_fit_ok po data periods f hd hlt hf]
          dsimp only
          rw [futureFrame_tail]
          refine ⟨by simp, ?_, ?_, hmax data, hach data hd⟩
          · rw [List.map_map]
            exact (List.map_congr_left
              (fun m _ => absMonth_yearOf_monthOf m)).trans (List.map_id _)
          · intro p hp
            rcases List.mem_map.mp hp with ⟨m, hm, heq⟩
            rw [← heq]
            exact monthOf_mem_range m
  · intro so data periods hs
    by_cases hd : data = []
    · rw [sarima_tap_gate so data periods (by simp [hd])] at hs
      simp [failureResult] at hs
    · by_cases hlt : (sortSeries data).length < 12
      · rw [sarima_tap_gate so data periods
          (by rwa [length_sortSeries] at hlt)] at hs
        simp [failureResult] at hs
      · cases hf : so.fit (sortSeries data) with
        | error e =>
          rw [sarima_tap_fit_error so data periods e hd hlt hf] at hs
          simp [failureResult] at hs
        | ok mf =>
          rw [sarima_tap_fit_ok so data periods mf hd hlt hf]
          dsimp only
          refine ⟨by simp [List.enum_eq_enumFrom], ?_, ?_, hmax data, hach data hd⟩
          · rw [List.map_map]
            refine (List.map_congr_left
              (fun di _ => absMonth_yearOf_monthOf di.2)).trans ?_
            rw [List.enum_eq_enumFrom]
            exact List.enumFrom_map_snd 0 _
          · intro p hp
            rcases List.mem_map.mp hp with ⟨di, hdi, heq⟩
            rw [← heq]
            exact monthOf_mem_range di.2


theorem data12_ne_nil : data12 ≠ [] := by decide

theorem sortSeries_data12_len : ¬ (sortSeries data12).length < 12 := by
  rw [length_sortSeries]
  decide

/-- Claim C3 witness: concrete successful forecasts of both variants have
exactly the requested number of predictions. -/
theorem claim_C3_horizon_consecutive_witness :
    (Prophet.train_and_predict oracleOkP data12 2).predictions.length = 2 ∧
    (Sarima.train_and_predict oracleOkS data12 3).predictions.length = 3 := by
  have hsP : (Prophet.train_and_predict oracleOkP data12 2).success = true := by
    rw [prophet_tap_fit_ok oracleOkP data12 2
      (fun _ => ((-1 : ℚ), (-2 : ℚ), (3 : ℚ))) data12_ne_nil
      sortSeries_data12_len rfl]
  have hsS : (Sarima.train_and_predict oracleOkS data12 3).success = true := by
    rw [sarima_tap_fit_ok oracleOkS data12 3 sarimaFitBadResid data12_ne_nil
      sortSeries_data12_len rfl]
  exact ⟨(claim_C3_horizon_consecutive.1 oracleOkP data12 2 hsP).1,
    (claim_C3_horizon_consecutive.2 oracleOkS data12 3 hsS).1⟩


theorem roundHalfEven_eq_of_floor {α : Type} [LinearOrderedField α]
    [FloorRing α] {x : α} {f : ℤ} (hf : Int.floor x = f)
    (h : x - (f : α) < 1 / 2) : roundHalfEven x = f := by
  unfold roundHalfEven
  rw [hf]
  exact if_pos h

theorem roundHalfEven_eq_add_one_of_floor {α : Type} [LinearOrderedField α]
    [FloorRing α] {x : α} {f : ℤ} (hf : Int.floor x = f)
    (h : 1 / 2 < x - (f : α)) : roundHalfEven x = f + 1 := by
  unfold roundHalfEven
  rw [hf]
  rw [if_neg (by linarith), if_pos h]

theorem round2_fifty : round2 (50 : ℚ) = 50 := by
  simpa using round2_intCast (α := ℚ) 50

theorem levelOf_fifty : levelOf (50 : ℚ) = "Media" := by
  unfold levelOf
  rw [if_neg (by norm_num), if_pos (by norm_num)]

/-- Claim C4 (amended): every confidence result of either scorer has its
score in [0, 100]; the score is the 2-decimal rounding of a clamped
confidence value in [0, 100] and the level is the 40/70 step function of
that same pre-rounding value (not of the rounded score). -/
theorem claim_C4_confidence_level_step :
    (∀ ys : List ℚ, ∃ c : ℝ, 0 ≤ c ∧ c ≤ 100 ∧
      (Prophet.calculate_confidence ys).score = round2 c ∧
      (Prophet.calculate_confidence ys).level = levelOf c ∧
      0 ≤ (Prophet.calculate_confidence ys).score ∧
      (Prophet.calculate_confidence ys).score ≤ 100) ∧
    (∀ (ts : List ℚ) (fv : Except String (List ℚ)), ∃ c : ℚ,
      0 ≤ c ∧ c ≤ 100 ∧
      (Sarima.calculate_confidence ts fv).score = round2 c ∧
      (Sarima.calculate_confidence ts fv).level = levelOf c ∧
      0 ≤ (Sarima.calculate_confidence ts fv).score ∧
      (Sarima.calculate_confidence ts fv).score ≤ 100) := by
  constructor
  · intro ys
    refine ⟨max 0 (min 100 (100 * (1 -
        Real.sqrt ((sampleVar ys : ℚ) : ℝ) / ((meanQ ys : ℚ) : ℝ)))),
      le_max_left 0 _, max_le (by norm_num) (min_le_left 100 _), rfl, rfl,
      round2_nonneg (le_max_left 0 _),
      round2_le_100 (max_le (by norm_num) (min_le_left 100 _))⟩
  · intro ts fv
    cases fv with
    | error e =>
      refine ⟨50, by norm_num, by norm_num, ?_, ?_, ?_, ?_⟩
      · exact round2_fifty.symm
      · exact levelOf_fifty.symm
      · show (0 : ℚ) ≤ 50
        norm_num
      · show (50 : ℚ) ≤ 100
        norm_num
    | ok fvl =>
      cases hm : Sarima.maeOf (ts.drop 1) (fvl.drop 1) with
      | error m =>
        have heq : Sarima.calculate_confidence ts (.ok fvl) =
            Sarima.neutralConfidence := by
          unfold Sarima.calculate_confidence
          dsimp only
          rw [hm]
        rw [heq]
        refine ⟨50, by norm_num, by norm_num, ?_, ?_, ?_, ?_⟩
        · exact round2_fifty.symm
        · exact levelOf_fifty.symm
        · show (0 : ℚ) ≤ 50
          norm_num
        · show (50 : ℚ) ≤ 100
          norm_num
      | ok mae =>
        have heq : Sarima.calculate_confidence ts (.ok fvl) =
            { score := round2 (max 0 (min 100 (100 * (1 -
                (if 0 < meanQ ts then mae / meanQ ts else 1))))),
              level := levelOf (max 0 (min 100 (100 * (1 -
                (if 0 < meanQ ts then mae / meanQ ts else 1))))),
              mae := round2 mae } := by
          unfold Sarima.calculate_confidence
          dsimp only
          rw [hm]
        rw [heq]
        exact ⟨max 0 (min 100 (100 * (1 -
            (if 0 < meanQ ts then mae / meanQ ts else 1)))),
          le_max_left 0 _, max_le (by norm_num) (min_le_left 100 _),
          rfl, rfl, round2_nonneg (le_max_left 0 _),
          round2_le_100 (max_le (by norm_num) (min_le_left 100 _))⟩


/-- A 12-month constant historical demand series (values only). -/
def tsC : List ℚ :=
  [100000, 100000, 100000, 100000, 100000, 100000, 100000, 100000, 100000,
   100000, 100000, 100000]

/-- In-sample fitted values whose MAE against `tsC` is exactly 29996,
giving a relative error of 0.29996 and a confidence of 70.004. -/
def fvC : List ℚ :=
  [70004, 70004, 70004, 70004, 70004, 70004, 70004, 70004, 70004, 70004,
   70004, 70004]

theorem maeOf_tsC_fvC : Sarima.maeOf (tsC.drop 1) (fvC.drop 1) = .ok 29996 := by
  unfold Sarima.maeOf tsC fvC
  norm_num [listSum]

theorem confidence_tsC_fvC :
    Sarima.calculate_confidence tsC (.ok fvC) =
      { score := 70, level := "Alta", mae := 29996 } := by
  unfold Sarima.calculate_confidence
  dsimp only
  rw [maeOf_tsC_fvC]
  dsimp only
  have hmean : meanQ tsC = 100000 := by
    unfold meanQ tsC listSum
    norm_num
  rw [hmean]
  rw [if_pos (by norm_num : (0 : ℚ) < 100000)]
  have hc : max (0 : ℚ) (min 100 (100 * (1 - 29996 / 100000))) = 17501 / 250 := by
    rw [show (100 : ℚ) * (1 - 29996 / 100000) = 17501 / 250 by norm_num]
    rw [min_eq_right (by norm_num), max_eq_right (by norm_num)]
  rw [hc]
  have hscore : round2 ((17501 : ℚ) / 250) = 70 := by
    unfold round2
    have hfl : Int.floor ((100 : ℚ) * (17501 / 250)) = 7000 := by
      rw [Int.floor_eq_iff]
      constructor <;> norm_num
    rw [roundHalfEven_eq_of_floor hfl (by push_cast; norm_num)]
    norm_num
  have hlevel : levelOf ((17501 : ℚ) / 250) = "Alta" := by
    unfold levelOf
    rw [if_pos (by norm_num)]
  have hmae : round2 (29996 : ℚ) = 29996 := by
    simpa using round2_intCast (α := ℚ) 29996
  rw [hscore, hlevel, hmae]

/-- Claim C4 counterexample: the scorer's reported score is 70 while its
level is "Alta" (High); the claimed step function of the score maps 70 to
Medium, so the level is not the step function of the reported score. -/
theorem claim_C4_counterexample :
    levelOf ((Sarima.calculate_confidence tsC (.ok fvC)).score) ≠
      (Sarima.calculate_confidence tsC (.ok fvC)).level := by
  rw [confidence_tsC_fvC]
  show levelOf (70 : ℚ) ≠ "Alta"
  unfold levelOf
  rw [if_neg (by norm_num), if_pos (by norm_num)]
  decide


theorem listSum_replicate (n : ℕ) (c : ℚ) :
    listSum (List.replicate n c) = n * c := by
  induction n with
  | zero => simp [listSum]
  | succ k ih =>
    rw [List.replicate_succ]
    unfold listSum at *
    rw [List.foldr_cons, ih]
    push_cast
    ring

theorem meanQ_replicate (n : ℕ) (c : ℚ) (hn : n ≠ 0) :
    meanQ (List.replicate n c) = c := by
  unfold meanQ
  rw [listSum_replicate, List.length_replicate]
  have : (n : ℚ) ≠ 0 := Nat.cast_ne_zero.mpr hn
  field_simp

theorem sampleVar_replicate (n : ℕ) (c : ℚ) (hn : n ≠ 0) :
    sampleVar (List.replicate n c) = 0 := by
  unfold sampleVar
  rw [meanQ_replicate n c hn, List.map_replicate]
  rw [show (c - c) ^ 2 = 0 by ring]
  rw [listSum_replicate]
  simp

theorem meanQ_234 : meanQ [2, 3, 4] = 3 := by
  unfold meanQ listSum
  norm_num

theorem sampleVar_234 : sampleVar [2, 3, 4] = 1 := by
  unfold sampleVar meanQ listSum
  norm_num

/-- Claim C5 (amended): the dispersion-based scorer's reported score is
`clamp(100 * (1 - stdev/mean), 0, 100)` rounded to 2 decimal places, its
level is the 40/70 step of the unrounded clamp; and every constant
positive series of at least 2 points (zero variance, `stdev/mean = 0`)
yields score 100 and level "Alta" (High). -/
theorem claim_C5_dispersion_scorer :
    (∀ ys : List ℚ,
      (Prophet.calculate_confidence ys).score =
        round2 (max 0 (min 100 (100 * (1 -
          Real.sqrt ((sampleVar ys : ℚ) : ℝ) / ((meanQ ys : ℚ) : ℝ))))) ∧
      (Prophet.calculate_confidence ys).level =
        levelOf (max 0 (min 100 (100 * (1 -
          Real.sqrt ((sampleVar ys : ℚ) : ℝ) / ((meanQ ys : ℚ) : ℝ)))))) ∧
    (∀ (c : ℚ) (n : ℕ), 0 < c → 2 ≤ n →
      Prophet.calculate_confidence (List.replicate n c) =
        { score := 100, level := "Alta" }) := by
  constructor
  · intro ys
    exact ⟨rfl, rfl⟩
  · intro c n hc hn
    have hn0 : n ≠ 0 := by omega
    have hmean : meanQ (List.replicate n c) = c := meanQ_replicate n c hn0
    have hvar : sampleVar (List.replicate n c) = 0 := sampleVar_replicate n c hn0
    unfold Prophet.calculate_confidence
    dsimp only
    rw [hvar, hmean, Rat.cast_zero, Real.sqrt_zero, zero_div]
    rw [show (100 : ℝ) * (1 - 0) = 100 by norm_num]
    rw [min_self, max_eq_right (by norm_num : (0 : ℝ) ≤ 100)]
    have h1 : round2 (100 : ℝ) = 100 := by
      simpa using round2_intCast (α := ℝ) 100
    have h2 : levelOf (100 : ℝ) = "Alta" := by
      unfold levelOf
      rw [if_pos (by norm_num)]
    rw [h1, h2]

/-- Claim C5 witness: the constant series of twelve 5s yields score 100
and level "Alta" from the dispersion scorer. -/
theorem claim_C5_dispersion_scorer_witness :
    0 < (5 : ℚ) ∧ 2 ≤ 12 ∧
    Prophet.calculate_confidence (List.replicate 12 (5 : ℚ)) =
      { score := 100, level := "Alta" } :=
  ⟨by norm_num, by norm_num,
    claim_C5_dispersion_scorer.2 5 12 (by norm_num) (by norm_num)⟩

/-- Claim C5 counterexample: on the series [2, 3, 4] (stdev 1, mean 3)
the reported score is 66.67, not the raw clamp value 200/3 = 66.666...;
the claim's formula omits the 2-decimal rounding. -/
theorem claim_C5_counterexample :
    (Prophet.calculate_confidence [2, 3, 4]).score ≠
      max 0 (min 100 (100 * (1 - Real.sqrt ((sampleVar [2, 3, 4] : ℚ) : ℝ) /
        ((meanQ [2, 3, 4] : ℚ) : ℝ)))) := by
  have hclamp : max (0 : ℝ) (min 100 (100 * (1 -
      Real.sqrt ((sampleVar [2, 3, 4] : ℚ) : ℝ) /
        ((meanQ [2, 3, 4] : ℚ) : ℝ)))) = 200 / 3 := by
    rw [sampleVar_234, meanQ_234, Rat.cast_one, Real.sqrt_one]
    rw [show (((3 : ℚ)) : ℝ) = 3 by norm_num]
    rw [show (100 : ℝ) * (1 - 1 / 3) = 200 / 3 by norm_num]
    rw [min_eq_right (by norm_num), max_eq_right (by norm_num)]
  have hscore : (Prophet.calculate_confidence [2, 3, 4]).score = 6667 / 100 := by
    unfold Prophet.calculate_confidence
    dsimp only
    rw [hclamp]
    unfold round2
    have hfl : Int.floor ((100 : ℝ) * (200 / 3)) = 6666 := by
      rw [Int.floor_eq_iff]
      constructor <;> norm_num
    rw [roundHalfEven_eq_add_one_of_floor hfl (by push_cast; norm_num)]
    norm_num
  rw [hscore, hclamp]
  norm_num


/-- Claim C6: any internal failure during confidence computation is
confined to the scorer and never surfaces as a forecast failure.  In the
SARIMA variant a failing `fittedvalues` access or a failing
`mean_absolute_error` is downgraded to the neutral default
`{score: 50, level: Media, mae: 0}` while the forecast still succeeds;
in the Prophet variant the scorer is total straight-line arithmetic (no
failure can arise) and a fitted forecast always succeeds carrying its
dispersion confidence. -/
theorem claim_C6_scoring_fail_soft :
    (∀ (ts : List ℚ) (e : String),
      Sarima.calculate_confidence ts (.error e) = Sarima.neutralConfidence) ∧
    (∀ (ts fvl : List ℚ) (m : String),
      Sarima.maeOf (ts.drop 1) (fvl.drop 1) = .error m →
      Sarima.calculate_confidence ts (.ok fvl) = Sarima.neutralConfidence) ∧
    (∀ (sf : Sarima.Fit) (e : String) (data : List DemandRecord) (periods : ℕ),
      sf.fittedvalues = .error e → 12 ≤ data.length →
      (Sarima.train_and_predict { fit := fun _ => .ok sf } data
        periods).success = true ∧
      (Sarima.train_and_predict { fit := fun _ => .ok sf } data
        periods).confidence = some Sarima.neutralConfidence) ∧
    (∀ (f : ℤ → ℚ × ℚ × ℚ) (data : List DemandRecord) (periods : ℕ),
      12 ≤ data.length →
      (Prophet.train_and_predict { fitPredict := fun _ => .ok f } data
        periods).success = true ∧
      (Prophet.train_and_predict { fitPredict := fun _ => .ok f } data
        periods).confidence = some (Prophet.calculate_confidence
          ((sortSeries data).map (fun p => p.2)))) := by
  refine ⟨fun ts e => rfl, ?_, ?_, ?_⟩
  · intro ts fvl m hm
    unfold Sarima.calculate_confidence
    dsimp only
    rw [hm]
  · intro sf e data periods hfv hlen
    have hd : data ≠ [] := by
      intro h
      subst h
      simp at hlen
    have hlt : ¬ (sortSeries data).length < 12 := by
      rw [length_sortSeries]
      omega
    rw [sarima_tap_fit_ok { fit := fun _ => .ok sf } data periods sf hd hlt rfl]
    refine ⟨rfl, ?_⟩
    dsimp only
    rw [hfv]
    rfl
  · intro f data periods hlen
    have hd : data ≠ [] := by
      intro h
      subst h
      simp at hlen
    have hlt : ¬ (sortSeries data).length < 12 := by
      rw [length_sortSeries]
      omega
    rw [prophet_tap_fit_ok { fitPredict := fun _ => .ok f } data periods f hd
      hlt rfl]
    exact ⟨rfl, rfl⟩

/-- Claim C6 witness: with a fitted model whose residual access raises,
the SARIMA forecast on 12 records succeeds and carries the neutral
confidence; the Prophet forecast on the same records succeeds. -/
theorem claim_C6_scoring_fail_soft_witness :
    Sarima.calculate_confidence tsC (.error "boom") = Sarima.neutralConfidence ∧
    (Sarima.train_and_predict { fit := fun _ => .ok sarimaFitBadResid } data12
      3).success = true ∧
    (Sarima.train_and_predict { fit := fun _ => .ok sarimaFitBadResid } data12
      3).confidence = some Sarima.neutralConfidence ∧
    (Prophet.train_and_predict
      { fitPredict := fun _ => .ok (fun _ => ((-1 : ℚ), (-2 : ℚ), (3 : ℚ))) }
      data12 3).success = true := by
  refine ⟨claim_C6_scoring_fail_soft.1 tsC "boom", ?_, ?_, ?_⟩
  · exact (claim_C6_scoring_fail_soft.2.2.1 sarimaFitBadResid
      "residual failure" data12 3 rfl (by decide)).1
  · exact (claim_C6_scoring_fail_soft.2.2.1 sarimaFitBadResid
      "residual failure" data12 3 rfl (by decide)).2
  · exact (claim_C6_scoring_fail_soft.2.2.2
      (fun _ => ((-1 : ℚ), (-2 : ℚ), (3 : ℚ))) data12 3 (by decide)).1


/-- Claim C7: `train_and_predict` is a total function into tagged result
values: a failed forecast always carries an error message and a
successful one never does, in both variants; and batch prediction over K
products is exactly the per-product map of `train_and_predict` — K
entries, the same keys in order, each entry depending only on its own
product's data. -/
theorem claim_C7_no_exception_batch_isolation :
    (∀ (po : Prophet.Oracle) (data : List DemandRecord) (periods : ℕ),
      ((Prophet.train_and_predict po data periods).success = false →
        ∃ m, (Prophet.train_and_predict po data periods).error = some m) ∧
      ((Prophet.train_and_predict po data periods).success = true →
        (Prophet.train_and_predict po data periods).error = none)) ∧
    (∀ (so : Sarima.Oracle) (data : List DemandRecord) (periods : ℕ),
      ((Sarima.train_and_predict so data periods).success = false →
        ∃ m, (Sarima.train_and_predict so data periods).error = some m) ∧
      ((Sarima.train_and_predict so data periods).success = true →
        (Sarima.train_and_predict so data periods).error = none)) ∧
    (∀ (po : Prophet.Oracle) (pd : List (String × List DemandRecord))
      (periods : ℕ),
      Prophet.predict_multiple_products po pd periods =
        pd.map (fun e => (e.1, Prophet.train_and_predict po e.2 periods)) ∧
      (Prophet.predict_multiple_products po pd periods).length = pd.length ∧
      (Prophet.predict_multiple_products po pd periods).map Prod.fst =
        pd.map Prod.fst) ∧
    (∀ (so : Sarima.Oracle) (pd : List (String × List DemandRecord))
      (periods : ℕ),
      Sarima.predict_multiple_products so pd periods =
        pd.map (fun e => (e.1, Sarima.train_and_predict so e.2 periods)) ∧
      (Sarima.predict_multiple_products so pd periods).length = pd.length ∧
      (Sarima.predict_multiple_products so pd periods).map Prod.fst =
        pd.map Prod.fst) := by
  refine ⟨?_, ?_, ?_, ?_⟩
  · intro po data periods
    by_cases hd : data = []
    · rw [prophet_tap_gate po data periods (by simp [hd])]
      exact ⟨fun _ => ⟨insufficientMsg, rfl⟩, fun h => by simp [failureResult] at h⟩
    · by_cases hlt : (sortSeries data).length < 12
      · rw [prophet_tap_gate po data periods (by rwa [length_sortSeries] at hlt)]
        exact ⟨fun _ => ⟨insufficientMsg, rfl⟩,
          fun h => by simp [failureResult] at h⟩
      · cases hf : po.fitPredict (sortSeries data) with
        | error e =>
          rw [prophet_tap_fit_error po data periods e hd hlt hf]
          exact ⟨fun _ => ⟨fitErrorMsg e, rfl⟩,
            fun h => by simp [failureResult] at h⟩
        | ok f =>
          rw [prophet_tap_fit_ok po data periods f hd hlt hf]
          exact ⟨fun h => by simp at h, fun _ => rfl⟩
  · intro so data periods
    by_cases hd : data = []
    · rw [sarima_tap_gate so data periods (by simp [hd])]
      exact ⟨fun _ => ⟨insufficientMsg, rfl⟩, fun h => by simp [failureResult] at h⟩
    · by_cases hlt : (sortSeries data).length < 12
      · rw [sarima_tap_gate so data periods (by rwa [length_sortSeries] at hlt)]
        exact ⟨fun _ => ⟨insufficientMsg, rfl⟩,
          fun h => by simp [failureResult] at h⟩
      · cases hf : so.fit (sortSeries data) with
        | error e =>
          rw [sarima_tap_fit_error so data periods e hd hlt hf]
          exact ⟨fun _ => ⟨fitErrorMsg e, rfl⟩,
            fun h => by simp [failureResult] at h⟩
        | ok mf =>
          rw [sarima_tap_fit_ok so data periods mf hd hlt hf]
          exact ⟨fun h => by simp at h, fun _ => rfl⟩
  · intro po pd periods
    have hmap : Prophet.predict_multiple_products po pd periods =
        pd.map (fun e => (e.1, Prophet.train_and_predict po e.2 periods)) := by
      unfold Prophet.predict_multiple_products
      rw [foldl_push_eq_map]
      simp
    refine ⟨hmap, ?_, ?_⟩
    · rw [hmap]
      simp
    · rw [hmap, List.map_map]
      simp
  · intro so pd periods
    have hmap : Sarima.predict_multiple_products so pd periods =
        pd.map (fun e => (e.1, Sarima.train_and_predict so e.2 periods)) := by
      unfold Sarima.predict_multiple_products
      rw [foldl_push_eq_map]
      simp
    refine ⟨hmap, ?_, ?_⟩
    · rw [hmap]
      simp
    · rw [hmap, List.map_map]
      simp

/-- Claim C7 witness: a failed fit yields a tagged error value and a
successful one a `none` error, at concrete inputs. -/
theorem claim_C7_no_exception_batch_isolation_witness :
    (∃ m, (Prophet.train_and_predict oracleFailP data12 3).error = some m) ∧
    (∃ m, (Sarima.train_and_predict oracleFailS data12 3).error = some m) ∧
    (Prophet.train_and_predict oracleOkP data12 2).error = none := by
  have hfp : (Prophet.train_and_predict oracleFailP data12 3).success = false := by
    rw [prophet_tap_fit_error oracleFailP data12 3 "boom" data12_ne_nil
      sortSeries_data12_len rfl]
    rfl
  have hfs : (Sarima.train_and_predict oracleFailS data12 3).success = false := by
    rw [sarima_tap_fit_error oracleFailS data12 3 "boom" data12_ne_nil
      sortSeries_data12_len rfl]
    rfl
  have hok : (Prophet.train_and_predict oracleOkP data12 2).success = true := by
    rw [prophet_tap_fit_ok oracleOkP data12 2
      (fun _ => ((-1 : ℚ), (-2 : ℚ), (3 : ℚ))) data12_ne_nil
      sortSeries_data12_len rfl]
  exact ⟨(claim_C7_no_exception_batch_isolation.1 oracleFailP data12 3).1 hfp,
    (claim_C7_no_exception_batch_isolation.2.1 oracleFailS data12 3).1 hfs,
    (claim_C7_no_exception_batch_isolation.1 oracleOkP data12 2).2 hok⟩


/-- Claim C8 (amended): when the minimum-history gate fails, the returned
failure carries the message "Se requieren al menos 12 meses de datos
históricos"; in particular every request with 5 monthly records fails
with a message containing the substring "12 meses" (the code's messages
are Spanish; the English "12 months" of the spec does not occur). -/
theorem claim_C8_insufficient_message :
    (∀ (po : Prophet.Oracle) (data : List DemandRecord) (periods : ℕ),
      data.length = 5 →
      (Prophet.train_and_predict po data periods).error = some insufficientMsg) ∧
    (∀ (so : Sarima.Oracle) (data : List DemandRecord) (periods : ℕ),
      data.length = 5 →
      (Sarima.train_and_predict so data periods).error = some insufficientMsg) ∧
    "12 meses".toList <:+: insufficientMsg.toList ∧
    insufficientMsg = "Se requieren al menos 12 meses de datos históricos" := by
  refine ⟨?_, ?_, by decide, rfl⟩
  · intro po data periods h
    rw [prophet_tap_gate po data periods (by omega)]
    rfl
  · intro so data periods h
    rw [sarima_tap_gate so data periods (by omega)]
    rfl

/-- Claim C8 witness: both variants fail on 5 concrete records with the
Spanish insufficient-history message. -/
theorem claim_C8_insufficient_message_witness :
    (Prophet.train_and_predict oracleFailP data5 3).error = some insufficientMsg ∧
    (Sarima.train_and_predict oracleFailS data5 3).error = some insufficientMsg :=
  ⟨claim_C8_insufficient_message.1 oracleFailP data5 3 (by decide),
   claim_C8_insufficient_message.2.1 oracleFailS data5 3 (by decide)⟩

/-- Claim C8 counterexample: on 5 records the failure message is the
Spanish sentence, which is not the claimed English message and does not
contain the substring "12 months". -/
theorem claim_C8_counterexample :
    (Sarima.train_and_predict oracleFailS data5 3).error = some insufficientMsg ∧
    ¬ ("12 months".toList <:+: insufficientMsg.toList) ∧
    insufficientMsg ≠ "at least 12 months of historical data required" := by
  refine ⟨?_, by decide, by decide⟩
  rw [sarima_tap_gate oracleFailS data5 3 (by decide)]
  rfl


/-- Claim C9: no instance state leaks between forecast calls — the result
component of the stateful `train_and_predict` method is independent of
whatever `self.model` held before the call (the field is overwritten
before it is read in every call), in both variants, so the result is a
function of the call's arguments alone. -/
theorem claim_C9_no_state_leak :
    (∀ (po : Prophet.Oracle) (s₁ s₂ : Option (List (ℤ × ℚ)))
      (data : List DemandRecord) (periods : ℕ),
      (Prophet.train_and_predict_method po s₁ data periods).1 =
        (Prophet.train_and_predict_method po s₂ data periods).1) ∧
    (∀ (so : Sarima.Oracle) (s₁ s₂ : Option (List (ℤ × ℚ)))
      (data : List DemandRecord) (periods : ℕ),
      (Sarima.train_and_predict_method so s₁ data periods).1 =
        (Sarima.train_and_predict_method so s₂ data periods).1) := by
  constructor
  · intro po s₁ s₂ data periods
    unfold Prophet.train_and_predict_method
    cases hp : Prophet.prepare_data data with
    | none => rfl
    | some df =>
      dsimp only
      by_cases hlt : df.length < 12
      · rw [if_pos hlt, if_pos hlt]
      · rw [if_neg hlt, if_neg hlt]
  · intro so s₁ s₂ data periods
    unfold Sarima.train_and_predict_method
    cases hp : Sarima.prepare_data data with
    | none => rfl
    | some ts =>
      dsimp only
      by_cases hlt : ts.length < 12
      · rw [if_pos hlt, if_pos hlt]
      · rw [if_neg hlt, if_neg hlt]

/-- Claim C10: the single-product route rejects every `periods` outside
[1, 12] with a 400 error before touching the predictor, while the batch
route applies no validation and passes the same `periods` unchecked to
`train_and_predict` for every product. -/
theorem claim_C10_periods_validation_asymmetry :
    (∀ (fb : FirebaseStore) (oracle : Prophet.Oracle) (producto : String)
      (periods : ℕ), (periods < 1 ∨ 12 < periods) →
      predict_product fb oracle producto periods =
        .err 400 "Los períodos deben estar entre 1 y 12") ∧
    (∀ (fb : FirebaseStore) (oracle : Prophet.Oracle) (periods : ℕ),
      (periods < 1 ∨ 12 < periods) → fb.allProducts ≠ [] →
      predict_all_products fb oracle periods =
        .ok (fb.allProducts.map (fun p =>
          (p, Prophet.train_and_predict oracle (fb.productData p) periods)))) := by
  constructor
  · intro fb oracle producto periods h
    unfold predict_product
    rw [if_pos h]
  · intro fb oracle periods _ hne
    unfold predict_all_products
    rw [if_neg hne, foldl_push_eq_map]
    simp

/-- A concrete store with one product. -/
def fbW : FirebaseStore :=
  { productData := fun _ => data5, allProducts := ["PAPA"] }

/-- Claim C10 witness: `periods = 13` is rejected by the single-product
route but forwarded per-product by the batch route. -/
theorem claim_C10_periods_validation_asymmetry_witness :
    predict_product fbW oracleFailP "papa" 13 =
      .err 400 "Los períodos deben estar entre 1 y 12" ∧
    predict_all_products fbW oracleFailP 13 =
      .ok (fbW.allProducts.map (fun p =>
        (p, Prophet.train_and_predict oracleFailP (fbW.productData p) 13))) :=
  ⟨claim_C10_periods_validation_asymmetry.1 fbW oracleFailP "papa" 13
      (Or.inr (by norm_num)),
   claim_C10_periods_validation_asymmetry.2 fbW oracleFailP 13
      (Or.inr (by norm_num)) (by decide)⟩

